import Mathlib

/-!
Verification of the authentication and session-lifecycle subsystem of the
ai-education-platform repository: the Result error-propagation container,
the auditable base entity, the base-service readiness guard, and the
AuthService operations (login, register, refreshToken, verifyToken,
changePassword) together with the account-lockout state machine.

The embedding is shallow: TypeScript classes become structures, methods
become pure functions, the asynchronous user repository becomes an
in-memory list of users threaded explicitly, and the external bcrypt and
jsonwebtoken libraries are modelled by executable functions that capture
the behaviour the service relies on (a hash compare succeeds exactly for
the password the hash was derived from; a signed token verifies exactly
under the signing secret and before its expiry instant).
-/

namespace AuthCore

/-! ## Result (src/shared/common/src/types/Result.ts) -/

/-- Structured detail map attached to a failure (Record of string to any in
the source, modelled as an association list of strings). -/
abbrev ErrorDetails : Type := List (String × String)

/-- Discriminated success/failure container from Result.ts. The source class
has a private constructor reachable only through the static success and
failure factories, so a success always carries a payload and a failure
always carries a message; the inductive encodes exactly that. -/
inductive Result (α : Type) : Type where
  | success (data : α)
  | failure (error : String) (errorDetails : Option ErrorDetails)
deriving DecidableEq, Repr

/-- Embeds the isSuccess getter of Result.ts. -/
def Result.isSuccess : Result α → Bool
  | .success _ => true
  | .failure _ _ => false

/-- Embeds the isFailure getter of Result.ts: the negation of isSuccess. -/
def Result.isFailure : Result α → Bool
  | .success _ => false
  | .failure _ _ => true

/-- Embeds the data getter of Result.ts: accessing the payload of a failed
result throws, modelled as an Except error. -/
def Result.data : Result α → Except String α
  | .success d => .ok d
  | .failure _ _ => .error "Cannot access data from a failed result"

/-- Embeds the error getter of Result.ts: accessing the error of a
successful result throws, modelled as an Except error. -/
def Result.error : Result α → Except String String
  | .success _ => .error "Cannot access error from a successful result"
  | .failure e _ => .ok e

/-! ## User roles (src/shared/common/src/enums/UserRoles.ts) -/

/-- The UserRole enum from UserRoles.ts. -/
inductive UserRole : Type where
  | SUPER_ADMIN
  | SCHOOL_ADMIN
  | TEACHER
  | STUDENT
  | PARENT
  | SUPPORT_STAFF
deriving DecidableEq, Repr

/-! ## User aggregate -/

/-- Modelled from the spec: the User aggregate (src/models/User.ts is
imported by AuthService.ts but is not among the provided sources). Fields
follow spec section 3: identity, credential hash, profile, lifecycle flags
isActive and isVerified, and login bookkeeping (consecutive failed-attempt
count and timestamps). Timestamps are modelled as natural-number seconds. -/
structure User : Type where
  id : String
  email : String
  passwordHash : String
  firstName : String
  lastName : String
  phone : Option String
  role : UserRole
  schoolId : Option String
  isActive : Bool
  isVerified : Bool
  failedLoginAttempts : Nat
  lastFailedLoginAt : Option Nat
  lastLoginAt : Option Nat
deriving DecidableEq, Repr

/-- Modelled from the spec: the fixed lockout threshold of section 4.2
(consecutive failed-login count reaching 5 locks the account). -/
def maxFailedLoginAttempts : Nat := 5

/-- Modelled from the spec: isLocked is a pure function of the
failed-attempt counter and the policy threshold (spec section 3
invariants), never stored directly. -/
def User.isLocked (u : User) : Bool :=
  decide (maxFailedLoginAttempts ≤ u.failedLoginAttempts)

/-- Modelled from the spec: a user may only authenticate when
simultaneously active, verified, and unlocked (spec section 4.2). -/
def User.canLogin (u : User) : Bool :=
  u.isActive && u.isVerified && !u.isLocked

/-- Modelled from the spec: a failed login increments the consecutive
failure counter and records the failure timestamp (spec section 4.3 login
step 4). -/
def User.recordFailedLogin (u : User) (now : Nat) : User :=
  { u with failedLoginAttempts := u.failedLoginAttempts + 1
           lastFailedLoginAt := some now }

/-- Modelled from the spec: a successful authentication resets the
consecutive-failure counter to 0 and records the login timestamp (spec
section 4.2). -/
def User.recordSuccessfulLogin (u : User) (now : Nat) : User :=
  { u with failedLoginAttempts := 0
           lastLoginAt := some now }

/-- Modelled from the spec: the explicit unlock action resets the
failure counter to 0 (spec section 4.2, transition LOCKED). -/
def User.unlock (u : User) : User :=
  { u with failedLoginAttempts := 0 }

/-- Modelled from the spec: resetPassword replaces the stored credential
hash (used by changePassword in AuthService.ts line 373; the actor
argument of the source call feeds the audit trail, which lives on the
auditable base entity modelled separately below). -/
def User.resetPassword (u : User) (newHash : String) : User :=
  { u with passwordHash := newHash }

/-! ## External primitives: bcrypt and JWT

The bcryptjs and jsonwebtoken packages are third-party dependencies, not
repository code. They are modelled by executable functions capturing the
contract the service uses: bcrypt.compare(p, h) succeeds exactly when h
was produced by hashing p, and jwt.verify(t, s) succeeds exactly when t
was signed with secret s and its expiry instant has not passed, failing
with a JsonWebTokenError (of which TokenExpiredError is a special case)
otherwise. -/

/-- Model of bcrypt.hash with the service's cost factor 12: an injective
executable stand-in for the one-way salted hash. -/
def bcryptHash (password : String) : String :=
  "$2b$12$" ++ password

/-- Model of bcrypt.compare: succeeds exactly when the hash was derived
from the password. -/
def bcryptCompare (password hash : String) : Bool :=
  hash == bcryptHash password

/-- The TokenPayload interface of AuthService.ts (lines 42 to 49). -/
structure TokenPayload : Type where
  userId : String
  email : String
  role : UserRole
  schoolId : Option String
  iat : Nat
  exp : Nat
deriving DecidableEq, Repr

/-- A signed, tamper-evident token: the payload plus the signing secret it
was sealed with. Verification under a different secret fails, which is
exactly the tamper-evidence property the service relies on. -/
structure SignedToken : Type where
  payload : TokenPayload
  secret : String
deriving DecidableEq, Repr

/-- The failure modes of jwt.verify that the service distinguishes:
both are JsonWebTokenError instances in the source library. -/
inductive JwtError : Type where
  | invalidSignature
  | tokenExpired
deriving DecidableEq, Repr

/-- Model of jwt.sign with an expiresIn option: stamps issued-at with the
current time and expiry with now plus the lifetime. -/
def jwtSign (userId email : String) (role : UserRole) (schoolId : Option String)
    (secret : String) (now expiresInSecs : Nat) : SignedToken :=
  ⟨⟨userId, email, role, schoolId, now, now + expiresInSecs⟩, secret⟩

/-- Model of jwt.verify: rejects a token sealed under a different secret,
rejects a token whose expiry instant has passed, and otherwise yields the
embedded payload. -/
def jwtVerify (token : SignedToken) (secret : String) (now : Nat) :
    Except JwtError TokenPayload :=
  if token.secret ≠ secret then .error .invalidSignature
  else if token.payload.exp ≤ now then .error .tokenExpired
  else .ok token.payload

/-! ## The user store (IUserRepository contract, spec section 6)

The repository is an external collaborator consumed through an interface.
Its honest behaviour is modelled as an in-memory list of users: findByEmail
and findById succeed with the first match or none, update replaces the
record with the matching id, and create enforces the email-uniqueness
constraint the contract requires. Store failures (infrastructure down) are
expressed by instantiating the operations' Result arguments with failures
in the parametrised service functions below. -/

/-- Lookup of a user record by email in the in-memory store. -/
def usersFind (store : List User) (email : String) : Option User :=
  store.find? (fun u => u.email == email)

/-- Honest findByEmail of the store contract. -/
def findByEmail (store : List User) (email : String) : Result (Option User) :=
  .success (usersFind store email)

/-- Honest findById of the store contract. -/
def findById (store : List User) (id : String) : Result (Option User) :=
  .success (store.find? (fun u => u.id == id))

/-- Honest update of the store contract: replaces the record with the
matching id. -/
def updateUser (store : List User) (id : String) (nu : User) : List User :=
  store.map (fun u => if u.id == id then nu else u)

/-- Honest create of the store contract: enforces the email uniqueness
constraint atomically (spec section 6), rejecting a duplicate email. -/
def createUser (store : List User) (u : User) : Result User :=
  if store.any (fun v => v.email == u.email) then
    .failure "duplicate key value violates unique constraint" none
  else
    .success u

/-! ## AuthService (src/services/authentication-service/src/services/AuthService.ts) -/

/-- The two signing secrets injected into the AuthService constructor. -/
structure AuthCfg : Type where
  jwtSecret : String
  jwtRefreshSecret : String
deriving DecidableEq, Repr

/-- The accessTokenExpiry of 15 minutes (line 60), in seconds. -/
def accessTokenExpirySecs : Nat := 15 * 60

/-- The refreshTokenExpiry of 7 days (line 61), in seconds. -/
def refreshTokenExpirySecs : Nat := 7 * 24 * 60 * 60

/-- The expiresIn field of a login response: 15 minutes in seconds
(line 173). -/
def expiresInSecs : Nat := 15 * 60

/-- The LoginRequest interface (lines 19 to 22). -/
structure LoginRequest : Type where
  email : String
  password : String
deriving DecidableEq, Repr

/-- The LoginResponse interface (lines 24 to 29). -/
structure LoginResponse : Type where
  user : User
  accessToken : SignedToken
  refreshToken : SignedToken
  expiresIn : Nat
deriving DecidableEq, Repr

/-- generateAccessToken (lines 388 to 397): signs userId, email, role and
schoolId under the access secret with the 15-minute lifetime. -/
def generateAccessToken (cfg : AuthCfg) (u : User) (now : Nat) : SignedToken :=
  jwtSign u.id u.email u.role u.schoolId cfg.jwtSecret now accessTokenExpirySecs

/-- generateRefreshToken (lines 402 to 410): signs userId, email and role
(no school id) under the refresh secret with the 7-day lifetime. -/
def generateRefreshToken (cfg : AuthCfg) (u : User) (now : Nat) : SignedToken :=
  jwtSign u.id u.email u.role none cfg.jwtRefreshSecret now refreshTokenExpirySecs

/-- The body of login (lines 127 to 183), parametrised by the outcome of
the findByEmail call so that both an honest store and a failing store can
be plugged in. Returns the Result handed to the caller together with the
store contents after the call. A findByEmail failure returns the opaque
authentication failure (lines 130 to 132), exactly as the catch-all
handler does for a throwing store (lines 179 to 182); a missing user
returns the same opaque failure (lines 135 to 137); an ineligible user is
answered with its state-specific message (lines 140 to 150); a password
mismatch records the failed attempt and persists it (lines 154 to 159); a
match records the successful login, persists it and issues both tokens
(lines 161 to 177). -/
def loginWithFind (cfg : AuthCfg) (store : List User)
    (findRes : Result (Option User)) (req : LoginRequest) (now : Nat) :
    Result LoginResponse × List User :=
  match findRes with
  | .failure _ _ => (.failure "Authentication failed" none, store)
  | .success none => (.failure "Authentication failed" none, store)
  | .success (some user) =>
    if !user.canLogin && user.isLocked then
      (.failure "Account is locked due to multiple failed attempts" none, store)
    else if !user.canLogin && !user.isActive then
      (.failure "Account is inactive" none, store)
    else if !user.canLogin && !user.isVerified then
      (.failure "Account is not verified" none, store)
    else if !(bcryptCompare req.password user.passwordHash) then
      let u' := user.recordFailedLogin now
      (.failure "Authentication failed" none, updateUser store user.id u')
    else
      let u' := user.recordSuccessfulLogin now
      (.success ⟨u', generateAccessToken cfg u' now, generateRefreshToken cfg u' now,
         expiresInSecs⟩,
       updateUser store user.id u')

/-- login (lines 124 to 183) against the honest in-memory store. -/
def login (cfg : AuthCfg) (store : List User) (req : LoginRequest) (now : Nat) :
    Result LoginResponse × List User :=
  loginWithFind cfg store (findByEmail store req.email) req now

/-! ## Registration -/

/-- The RegisterRequest interface (lines 31 to 40). The additionalData
spread of arbitrary extra properties is not part of any verified claim and
is omitted. -/
structure RegisterRequest : Type where
  email : String
  password : String
  firstName : String
  lastName : String
  phone : Option String
  role : String
  schoolId : Option String
deriving DecidableEq, Repr

/-- validatePassword (lines 461 to 479): minimum length 8, at least one
uppercase letter, one lowercase letter and one digit, each regex test
reported with its own message, checked in source order. The character
classes of the source regexes are the ASCII ranges matched by
Char.isUpper, Char.isLower and Char.isDigit. -/
def validatePassword (password : String) : Result Bool :=
  if password.length < 8 then
    .failure "Password must be at least 8 characters long" none
  else if !(password.toList.any Char.isUpper) then
    .failure "Password must contain at least one uppercase letter" none
  else if !(password.toList.any Char.isLower) then
    .failure "Password must contain at least one lowercase letter" none
  else if !(password.toList.any Char.isDigit) then
    .failure "Password must contain at least one number" none
  else
    .success true

/-- Splitting a character list at every at sign, the structural
counterpart of String.splitOn used so that concrete inputs reduce inside
the kernel. -/
def splitOnAt (l : List Char) : List (List Char) :=
  l.foldr (fun ch acc =>
    match acc with
    | [] => [[ch]]
    | a :: rest => if ch = '@' then [] :: (a :: rest) else (ch :: a) :: rest) [[]]

/-- The toUpperCase of JavaScript for ASCII strings, as a structural map
over the characters. -/
def toUpperStr (s : String) : String := String.mk (s.toList.map Char.toUpper)

/-- The trim of JavaScript: leading and trailing whitespace removed. -/
def trimStr (s : String) : String :=
  String.mk (((s.toList.dropWhile Char.isWhitespace).reverse.dropWhile
    Char.isWhitespace).reverse)

/-- The Array.prototype.join of JavaScript with a separator. -/
def joinWith (sep : String) : List String → String
  | [] => ""
  | [x] => x
  | x :: xs => x ++ sep ++ joinWith sep xs

/-- isValidEmail (lines 453 to 456): the anchored regex demands one or
more non-whitespace non-at characters, a single at sign, then a domain
that splits at some dot into two nonempty non-whitespace non-at pieces.
Splitting on the at sign yields exactly two parts precisely when the
string contains exactly one at sign; the existential over dot positions
mirrors the backtracking of the greedy regex. -/
def isValidEmail (email : String) : Bool :=
  match splitOnAt email.toList with
  | [l, cs] =>
    !l.isEmpty && l.all (fun c => !c.isWhitespace) &&
      cs.all (fun c => !c.isWhitespace) &&
      (List.range cs.length).any
        (fun i => cs.getD i ' ' == '.' && decide (0 < i) && decide (i + 1 < cs.length))
  | _ => false

/-- validateRegistrationRequest (lines 415 to 448): collects the error
messages in source order and joins them with a comma when any check
fails. An empty email or role string is falsy in the source and also
fails the corresponding test here. -/
def validateRegistrationRequest (req : RegisterRequest) : Result Bool :=
  let errors :=
    (if req.email.isEmpty || !(isValidEmail req.email) then
      ["Valid email is required"] else []) ++
    (if req.password.isEmpty then ["Password is required"]
     else match validatePassword req.password with
       | .failure e _ => [e]
       | .success _ => []) ++
    (if (trimStr req.firstName).length < 2 then
      ["First name must be at least 2 characters"] else []) ++
    (if (trimStr req.lastName).length < 2 then
      ["Last name must be at least 2 characters"] else []) ++
    (if !((["TEACHER", "STUDENT", "ADMIN", "SCHOOL_ADMIN"] : List String).contains
        (toUpperStr req.role)) then
      ["Valid role is required"] else [])
  if errors.isEmpty then .success true
  else .failure (joinWith ", " errors) none

/-- Modelled from the spec: the TeacherUser constructor of the absent
src/models/User.ts, as invoked at lines 211 to 219. The fresh identifier
stands for the generated uuid; a newly created account starts with a zero
failure counter, and is created able to log in afterwards (spec section 8,
register-then-login round trip). -/
def mkTeacherUser (freshId : String) (req : RegisterRequest) (passwordHash : String) :
    User :=
  ⟨freshId, req.email, passwordHash, req.firstName, req.lastName, req.phone,
    .TEACHER, req.schoolId, true, true, 0, none, none⟩

/-- Modelled from the spec: the StudentUser constructor of the absent
src/models/User.ts, as invoked at lines 223 to 231. -/
def mkStudentUser (freshId : String) (req : RegisterRequest) (passwordHash : String) :
    User :=
  ⟨freshId, req.email, passwordHash, req.firstName, req.lastName, req.phone,
    .STUDENT, req.schoolId, true, true, 0, none, none⟩

/-- Modelled from the spec: the AdminUser constructor of the absent
src/models/User.ts with adminLevel SCHOOL, as invoked at lines 236 to 245;
its role is the SCHOOL_ADMIN member of the UserRole enum. -/
def mkAdminUser (freshId : String) (req : RegisterRequest) (passwordHash : String) :
    User :=
  ⟨freshId, req.email, passwordHash, req.firstName, req.lastName, req.phone,
    .SCHOOL_ADMIN, req.schoolId, true, true, 0, none, none⟩

/-- The body of register (lines 191 to 264), parametrised by the outcome
of the duplicate-email pre-check and by the store's create operation so
that both the honest store and a store whose create rejects the write can
be plugged in. The pre-check rejects only when the lookup succeeded with a
user present (line 200); the role dispatch uppercases the requested role
(line 209) and rejects unknown roles (line 249); a create failure is
surfaced as the generic creation failure (lines 253 to 255). -/
def registerWith (findRes : Result (Option User)) (create : User → Result User)
    (req : RegisterRequest) (freshId : String) : Result User :=
  match validateRegistrationRequest req with
  | .failure e d => .failure e d
  | .success _ =>
    match findRes with
    | .success (some _) => .failure "User with this email already exists" none
    | _ =>
      let passwordHash := bcryptHash req.password
      let save : User → Result User := fun u =>
        match create u with
        | .failure _ _ => .failure "Failed to create user account" none
        | .success cu => .success cu
      let roleU := toUpperStr req.role
      if roleU == "TEACHER" then save (mkTeacherUser freshId req passwordHash)
      else if roleU == "STUDENT" then save (mkStudentUser freshId req passwordHash)
      else if roleU == "ADMIN" || roleU == "SCHOOL_ADMIN" then
        save (mkAdminUser freshId req passwordHash)
      else .failure "Invalid user role" none

/-- register (lines 188 to 265) against the honest in-memory store: on a
successful create the new user is persisted. -/
def register (store : List User) (req : RegisterRequest) (freshId : String) :
    Result User × List User :=
  match registerWith (findByEmail store req.email) (createUser store) req freshId with
  | .success u => (.success u, store ++ [u])
  | r => (r, store)

/-! ## Token verification, refresh and password change -/

/-- verifyToken (lines 313 to 337): any JsonWebTokenError from the codec,
including an expired token, is answered with the invalid-token failure, as
is a missing or unfetchable user; an inactive user is rejected; otherwise
the freshly re-fetched user record is returned. -/
def verifyToken (cfg : AuthCfg) (store : List User) (token : SignedToken)
    (now : Nat) : Result User :=
  match jwtVerify token cfg.jwtSecret now with
  | .error _ => .failure "Invalid token" none
  | .ok payload =>
    match findById store payload.userId with
    | .failure _ _ => .failure "Invalid token" none
    | .success none => .failure "Invalid token" none
    | .success (some user) =>
      if !user.isActive then .failure "User account is not active" none
      else .success user

/-- refreshToken (lines 270 to 308): verifies under the refresh secret,
re-fetches the user by the embedded subject id, re-checks login
eligibility and issues a fresh token pair. -/
def refreshTokenOp (cfg : AuthCfg) (store : List User) (token : SignedToken)
    (now : Nat) : Result LoginResponse :=
  match jwtVerify token cfg.jwtRefreshSecret now with
  | .error _ => .failure "Invalid refresh token" none
  | .ok payload =>
    match findById store payload.userId with
    | .failure _ _ => .failure "Invalid refresh token" none
    | .success none => .failure "Invalid refresh token" none
    | .success (some user) =>
      if !user.canLogin then .failure "User account is not active" none
      else
        .success ⟨user, generateAccessToken cfg user now,
          generateRefreshToken cfg user now, expiresInSecs⟩

/-- changePassword (lines 342 to 383): requires the correct current
password, applies the registration password policy to the new password,
re-hashes and persists through resetPassword. -/
def changePassword (store : List User) (userId currentPassword newPassword : String) :
    Result Bool × List User :=
  match findById store userId with
  | .failure _ _ => (.failure "User not found" none, store)
  | .success none => (.failure "User not found" none, store)
  | .success (some user) =>
    if !(bcryptCompare currentPassword user.passwordHash) then
      (.failure "Current password is incorrect" none, store)
    else
      match validatePassword newPassword with
      | .failure e d => (.failure e d, store)
      | .success _ =>
        let u' := user.resetPassword (bcryptHash newPassword)
        (.success true, updateUser store userId u')

/-! ## BaseService readiness (src/shared/common/src/base/BaseService.ts) -/

/-- The readiness-relevant state of BaseService: the isInitialized and
isShuttingDown flags (lines 15 and 16), both false at construction. -/
structure ServiceState : Type where
  isInitialized : Bool
  isShuttingDown : Bool
deriving DecidableEq, Repr

/-- The state of a freshly constructed service. -/
def ServiceState.fresh : ServiceState := ⟨false, false⟩

/-- isReady (lines 136 to 138): initialized and not shutting down. -/
def isReady (s : ServiceState) : Bool :=
  s.isInitialized && !s.isShuttingDown

/-- The message of the error thrown by validateReady for the AuthService
instance (service name AuthService, line 71). -/
def notReadyMsg (serviceName : String) : String :=
  "Service " ++ serviceName ++ " is not ready"

/-- validateReady (lines 143 to 147): throws when the service is not
ready, modelled as an Except error. -/
def validateReady (serviceName : String) (s : ServiceState) : Except String Unit :=
  if !(isReady s) then .error (notReadyMsg serviceName) else .ok ()

/-- The state transition of a completed initialize() call (line 38 sets
isInitialized on success). -/
def initServiceState (s : ServiceState) : ServiceState :=
  { s with isInitialized := true }

/-- The state once shutdown() has begun (line 106 sets isShuttingDown
before the service-specific shutdown work runs). -/
def shutdownBegun (s : ServiceState) : ServiceState :=
  { s with isShuttingDown := true }

/-- login behind the validateReady guard of line 125: invoked on a
service that is not ready, the call aborts with the thrown error instead
of returning a Result. -/
def loginOp (st : ServiceState) (cfg : AuthCfg) (store : List User)
    (req : LoginRequest) (now : Nat) :
    Except String (Result LoginResponse × List User) := do
  validateReady "AuthService" st
  pure (login cfg store req now)

/-- register behind the validateReady guard of line 189. -/
def registerOp (st : ServiceState) (store : List User) (req : RegisterRequest)
    (freshId : String) : Except String (Result User × List User) := do
  validateReady "AuthService" st
  pure (register store req freshId)

/-- refreshToken behind the validateReady guard of line 271. -/
def refreshOp (st : ServiceState) (cfg : AuthCfg) (store : List User)
    (token : SignedToken) (now : Nat) : Except String (Result LoginResponse) := do
  validateReady "AuthService" st
  pure (refreshTokenOp cfg store token now)

/-- verifyToken behind the validateReady guard of line 314. -/
def verifyOp (st : ServiceState) (cfg : AuthCfg) (store : List User)
    (token : SignedToken) (now : Nat) : Except String (Result User) := do
  validateReady "AuthService" st
  pure (verifyToken cfg store token now)

/-- changePassword behind the validateReady guard of line 347. -/
def changePasswordOp (st : ServiceState) (store : List User)
    (userId currentPassword newPassword : String) :
    Except String (Result Bool × List User) := do
  validateReady "AuthService" st
  pure (changePassword store userId currentPassword newPassword)

/-! ## Auditable entity (src/shared/common/src/base/BaseEntity.ts) -/

/-- An AuditEntry (IBaseEntity.ts lines 31 to 37): timestamp, acting user,
action name, and the field-level diff recorded as field, old value, new
value triples. -/
structure AuditEntry : Type where
  timestamp : Nat
  userId : String
  action : String
  changes : List (String × String × String)
deriving DecidableEq, Repr

/-- An AuditableEntity (BaseEntity.ts lines 70 to 160): the base-entity
metadata that addAuditEntry touches, the version counter, the audit log,
and the entity's own scalar fields modelled as an association list so
that the dynamic property access of auditUpdate has something to read and
write. -/
structure AuditableEntity : Type where
  updatedAt : Nat
  updatedBy : Option String
  version : Nat
  auditLog : List AuditEntry
  fields : List (String × String)
deriving DecidableEq, Repr

/-- addAuditEntry (lines 83 to 100): pushes exactly one entry onto the
log, increments version by exactly 1, and refreshes the update metadata
(updateMetadata, lines 25 to 30). -/
def addAuditEntry (e : AuditableEntity) (userId action : String)
    (changes : List (String × String × String)) (now : Nat) : AuditableEntity :=
  { e with auditLog := e.auditLog ++ [⟨now, userId, action, changes⟩]
           version := e.version + 1
           updatedAt := now
           updatedBy := some userId }

/-- The change-tracking loop of auditUpdate (lines 113 to 121): an update
is recorded only for a key the entity owns whose new value differs from
the old one. -/
def computeChanges (fields : List (String × String))
    (updates : List (String × String)) : List (String × String × String) :=
  updates.filterMap (fun kv =>
    match fields.lookup kv.1 with
    | some old => if old ≠ kv.2 then some (kv.1, old, kv.2) else none
    | none => none)

/-- The field writes performed by the loop of auditUpdate for each
detected change. -/
def applyChanges (fields : List (String × String))
    (changes : List (String × String × String)) : List (String × String) :=
  changes.foldl
    (fun fs c => fs.map (fun kv => if kv.1 = c.1 then (kv.1, c.2.2) else kv))
    fields

/-- auditUpdate (lines 105 to 126): applies the effective changes and
commits a single audit entry exactly when the computed diff is nonempty;
a diff-free update mutates nothing. -/
def auditUpdate (e : AuditableEntity) (updates : List (String × String))
    (userId : String) (now : Nat) : AuditableEntity :=
  let chs := computeChanges e.fields updates
  if chs.isEmpty then e
  else
    addAuditEntry { e with fields := applyChanges e.fields chs }
      userId "UPDATE" chs now

/-- A committed mutation fed to the audit trail: the arguments of one
addAuditEntry call. -/
structure MutationCall : Type where
  userId : String
  action : String
  changes : List (String × String × String)
  now : Nat
deriving DecidableEq, Repr

/-- Folding step applying one committed mutation to an entity. -/
def applyMutation (e : AuditableEntity) (m : MutationCall) : AuditableEntity :=
  addAuditEntry e m.userId m.action m.changes m.now

/-! ## Concrete sample data used by witnesses and counterexamples -/

/-- A stored user able to log in, with the hash of the password
GoodPw1x. -/
def sampleUser : User :=
  ⟨"id1", "alice@school.example", bcryptHash "GoodPw1x", "Alice", "Jones",
    none, .TEACHER, none, true, true, 0, none, none⟩

/-- The same account after five consecutive failed attempts: locked. -/
def sampleLockedUser : User :=
  { sampleUser with failedLoginAttempts := 5 }

/-- A pair of signing secrets for the sample service instance. -/
def sampleCfg : AuthCfg := ⟨"accessSecret", "refreshSecret"⟩

/-- A well-formed registration request carrying the role TEACHER in lower
case. -/
def sampleRegisterRequest : RegisterRequest :=
  ⟨"newuser@example.com", "Abcdef12", "John", "Smith", none, "teacher", none⟩

/-- A sample signed token for exercising the guarded operations. -/
def sampleToken : SignedToken :=
  jwtSign "id1" "alice@school.example" .TEACHER none "accessSecret" 0 10

/-! ## Theorems -/

/-- C9: for every Result value, reading the data accessor of a failure and
reading the error accessor of a success each fail fast with the
contract-violation error, while data of a success yields the payload and
error of a failure yields the message. -/
theorem result_accessor_contract :
    ∀ (α : Type) (d : α) (e : String) (det : Option ErrorDetails),
      (Result.success d).data = Except.ok d ∧
      (Result.failure e det : Result α).data =
        Except.error "Cannot access data from a failed result" ∧
      (Result.failure e det : Result α).error = Except.ok e ∧
      (Result.success d).error =
        Except.error "Cannot access error from a successful result" := by
  intro α d e det
  exact ⟨rfl, rfl, rfl, rfl⟩

/-- C6 counterexample: a failing findByEmail (infrastructure down) makes
login return exactly the same opaque failure, message and details
included, as a wrong password for a stored eligible user, so the two
conditions are not distinguishable from the returned Result. -/
theorem login_store_failure_counterexample :
    (loginWithFind sampleCfg [sampleUser] (.failure "store unavailable" none)
        ⟨"alice@school.example", "GoodPw1x"⟩ 100).1 =
      .failure "Authentication failed" none ∧
    (login sampleCfg [sampleUser] ⟨"alice@school.example", "wrongPw"⟩ 100).1 =
      .failure "Authentication failed" none ∧
    (loginWithFind sampleCfg [sampleUser] (.failure "store unavailable" none)
        ⟨"alice@school.example", "GoodPw1x"⟩ 100).1 =
      (login sampleCfg [sampleUser] ⟨"alice@school.example", "wrongPw"⟩ 100).1 := by
  exact ⟨rfl, by decide, by decide⟩

/-- C6 amended: a store failure during login is surfaced as the very same
opaque failure Result, with the message Authentication failed, that a
wrong password produces; the login Result does not let a caller tell an
infrastructure failure apart from wrong credentials. -/
theorem login_store_failure_amended :
    ∀ (cfg : AuthCfg) (store : List User) (err : String)
      (det : Option ErrorDetails) (req : LoginRequest) (now : Nat),
      (loginWithFind cfg store (.failure err det) req now).1 =
        .failure "Authentication failed" none := by
  intro cfg store err det req now
  rfl

/-- C7: the password policy of AuthService accepts a password exactly when
it has length at least 8 and contains an uppercase letter, a lowercase
letter and a digit; the password abc fails registration validation and
Abcdef12, which has no special character, passes the policy. -/
theorem password_policy_characterization :
    (∀ p : String, (validatePassword p).isSuccess = true ↔
      (8 ≤ p.length ∧ (∃ c ∈ p.toList, c.isUpper = true) ∧
        (∃ c ∈ p.toList, c.isLower = true) ∧ (∃ c ∈ p.toList, c.isDigit = true))) ∧
    validatePassword "abc" =
      .failure "Password must be at least 8 characters long" none ∧
    (validateRegistrationRequest
      ⟨"a@b.com", "abc", "John", "Smith", none, "TEACHER", none⟩).isFailure = true ∧
    (validatePassword "Abcdef12").isSuccess = true ∧
    (changePassword [sampleUser] "id1" "GoodPw1x" "abc").1 =
      .failure "Password must be at least 8 characters long" none ∧
    (changePassword [sampleUser] "id1" "GoodPw1x" "Abcdef12").1 = .success true := by
  refine ⟨?_, rfl, by decide, by decide, by decide, by decide⟩
  intro p
  unfold validatePassword
  split_ifs with h1 h2 h3 h4
  · exact iff_of_false (by simp [Result.isSuccess])
      (fun h => absurd h.1 (by omega))
  · refine iff_of_false (by simp [Result.isSuccess]) (fun h => ?_)
    obtain ⟨c, hc, hcu⟩ := h.2.1
    simp only [Bool.not_eq_true', List.any_eq_false] at h2
    exact absurd hcu (by simpa using h2 c hc)
  · refine iff_of_false (by simp [Result.isSuccess]) (fun h => ?_)
    obtain ⟨c, hc, hcl⟩ := h.2.2.1
    simp only [Bool.not_eq_true', List.any_eq_false] at h3
    exact absurd hcl (by simpa using h3 c hc)
  · refine iff_of_false (by simp [Result.isSuccess]) (fun h => ?_)
    obtain ⟨c, hc, hcd⟩ := h.2.2.2
    simp only [Bool.not_eq_true', List.any_eq_false] at h4
    exact absurd hcd (by simpa using h4 c hc)
  · refine iff_of_true (by simp [Result.isSuccess]) ?_
    have h2' : p.toList.any Char.isUpper = true := by simpa using h2
    have h3' : p.toList.any Char.isLower = true := by simpa using h3
    have h4' : p.toList.any Char.isDigit = true := by simpa using h4
    exact ⟨by omega, by simpa using h2', by simpa using h3', by simpa using h4'⟩

/-- C10: every public AuthService operation behind the validateReady guard
aborts with the thrown error Service AuthService is not ready whenever the
service state is not ready, which is exactly when it is not initialized or
is shutting down; a fresh service is not ready, a completed initialize
makes it ready, a begun shutdown makes it not ready again, and on a ready
state every operation passes the guard and returns its Result. -/
theorem service_readiness_guard :
    ∀ (st : ServiceState) (cfg : AuthCfg) (store : List User) (req : LoginRequest)
      (rreq : RegisterRequest) (freshId : String) (tok : SignedToken)
      (uid cur npw : String) (now : Nat),
      (isReady st = false →
        loginOp st cfg store req now = .error "Service AuthService is not ready" ∧
        registerOp st store rreq freshId =
          .error "Service AuthService is not ready" ∧
        refreshOp st cfg store tok now = .error "Service AuthService is not ready" ∧
        verifyOp st cfg store tok now = .error "Service AuthService is not ready" ∧
        changePasswordOp st store uid cur npw =
          .error "Service AuthService is not ready") ∧
      (isReady st = true →
        loginOp st cfg store req now = .ok (login cfg store req now) ∧
        registerOp st store rreq freshId = .ok (register store rreq freshId) ∧
        refreshOp st cfg store tok now = .ok (refreshTokenOp cfg store tok now) ∧
        verifyOp st cfg store tok now = .ok (verifyToken cfg store tok now) ∧
        changePasswordOp st store uid cur npw =
          .ok (changePassword store uid cur npw)) ∧
      isReady ServiceState.fresh = false ∧
      isReady (initServiceState ServiceState.fresh) = true ∧
      isReady (shutdownBegun (initServiceState ServiceState.fresh)) = false ∧
      (isReady st = false ↔ st.isInitialized = false ∨ st.isShuttingDown = true) := by
  intro st cfg store req rreq freshId tok uid cur npw now
  refine ⟨?_, ?_, rfl, rfl, rfl, ?_⟩
  · intro h
    simp [loginOp, registerOp, refreshOp, verifyOp, changePasswordOp,
      validateReady, notReadyMsg, h, Bind.bind, Except.bind]
  · intro h
    simp [loginOp, registerOp, refreshOp, verifyOp, changePasswordOp,
      validateReady, notReadyMsg, h, Bind.bind, Except.bind, pure, Except.pure]
  · cases st with
    | mk ini shut =>
      cases ini <;> cases shut <;> simp [isReady]

/-- C10 witness: on the not-ready fresh state the guarded login aborts with
the thrown readiness error, and on an initialized, not shutting down state
it returns the Result of the unguarded login. -/
theorem service_readiness_guard_witness :
    isReady ⟨false, false⟩ = false ∧
    loginOp ⟨false, false⟩ sampleCfg [] ⟨"a@b.co", "pw"⟩ 0 =
      .error "Service AuthService is not ready" ∧
    isReady ⟨true, false⟩ = true ∧
    loginOp ⟨true, false⟩ sampleCfg [] ⟨"a@b.co", "pw"⟩ 0 =
      .ok (login sampleCfg [] ⟨"a@b.co", "pw"⟩ 0) :=
  ⟨rfl,
   ((service_readiness_guard ⟨false, false⟩ sampleCfg [] ⟨"a@b.co", "pw"⟩
      sampleRegisterRequest "fid" sampleToken "u" "c" "n" 0).1 rfl).1,
   rfl,
   (((service_readiness_guard ⟨true, false⟩ sampleCfg [] ⟨"a@b.co", "pw"⟩
      sampleRegisterRequest "fid" sampleToken "u" "c" "n" 0).2.1) rfl).1⟩

/-- Folding committed mutations through addAuditEntry only ever appends to
the log, one entry and one version bump per mutation. -/
lemma auditLog_foldl_append (e : AuditableEntity) (ms : List MutationCall) :
    ∃ s : List AuditEntry,
      (ms.foldl applyMutation e).auditLog = e.auditLog ++ s ∧
      s.length = ms.length ∧
      (ms.foldl applyMutation e).version = e.version + ms.length := by
  induction ms generalizing e with
  | nil => exact ⟨[], by simp, rfl, rfl⟩
  | cons m ms ih =>
    obtain ⟨s, h1, h2, h3⟩ := ih (applyMutation e m)
    refine ⟨⟨m.now, m.userId, m.action, m.changes⟩ :: s, ?_, ?_, ?_⟩
    · simpa [applyMutation, addAuditEntry] using h1
    · simpa using h2
    · simp only [List.foldl_cons, List.length_cons]
      simp only [applyMutation, addAuditEntry] at h3 ⊢
      omega

/-- C8: over every sequence of committed mutations, each one appends
exactly one audit entry and increments the version by exactly 1, and the
previous log survives as an unchanged initial segment, so the version
always exceeds the initial version by exactly the number of committed
mutations, which equals the growth of the audit-log length; auditUpdate
commits exactly one mutation when its computed field diff is nonempty and
none otherwise. -/
theorem audit_version_invariant :
    (∀ (e : AuditableEntity) (ms : List MutationCall),
      (ms.foldl applyMutation e).version + e.auditLog.length =
        e.version + (ms.foldl applyMutation e).auditLog.length ∧
      (ms.foldl applyMutation e).auditLog.length = e.auditLog.length + ms.length ∧
      (ms.foldl applyMutation e).auditLog.take e.auditLog.length = e.auditLog) ∧
    (∀ (e : AuditableEntity) (updates : List (String × String))
      (uid : String) (now : Nat),
      (auditUpdate e updates uid now).version =
        e.version + (if (computeChanges e.fields updates).isEmpty then 0 else 1) ∧
      (auditUpdate e updates uid now).auditLog.length =
        e.auditLog.length +
          (if (computeChanges e.fields updates).isEmpty then 0 else 1) ∧
      (auditUpdate e updates uid now).auditLog.take e.auditLog.length =
        e.auditLog) := by
  constructor
  · intro e ms
    obtain ⟨s, h1, h2, h3⟩ := auditLog_foldl_append e ms
    refine ⟨?_, ?_, ?_⟩
    · rw [h1, h3]
      simp [h2]
      omega
    · rw [h1]
      simp [h2]
    · rw [h1]
      exact List.take_left e.auditLog s
  · intro e updates uid now
    unfold auditUpdate
    by_cases h : (computeChanges e.fields updates).isEmpty = true
    · simp [h, List.take_length]
    · rw [if_neg h]
      refine ⟨?_, ?_, ?_⟩
      · simp [addAuditEntry, h]
      · simp [addAuditEntry, h]
      · simp only [addAuditEntry]
        exact List.take_left e.auditLog _

/-- C1 counterexample: with a stored population containing one locked
user, login with that user's email and a wrong password answers with the
lock-specific message, while login with an unknown email answers with
Authentication failed, so there is a stored population for which an
existing email with a wrong password and a non-existent email are
distinguishable. -/
theorem login_enumeration_counterexample :
    usersFind [sampleLockedUser] "alice@school.example" = some sampleLockedUser ∧
    bcryptCompare "wrongPw" sampleLockedUser.passwordHash = false ∧
    (login sampleCfg [sampleLockedUser]
        ⟨"alice@school.example", "wrongPw"⟩ 100).1 =
      .failure "Account is locked due to multiple failed attempts" none ∧
    usersFind [sampleLockedUser] "nobody@example.com" = none ∧
    (login sampleCfg [sampleLockedUser] ⟨"nobody@example.com", "wrongPw"⟩ 100).1 =
      .failure "Authentication failed" none ∧
    (login sampleCfg [sampleLockedUser]
        ⟨"alice@school.example", "wrongPw"⟩ 100).1 ≠
      (login sampleCfg [sampleLockedUser]
        ⟨"nobody@example.com", "wrongPw"⟩ 100).1 := by
  exact ⟨rfl, by decide, by decide, rfl, by decide, by decide⟩

/-- C1 amended: for every stored user population, a login with an email
matching no user and a login with the email of a stored user who is
eligible to log in (active, verified, not locked) but a wrong password
return the identical opaque failure Result with the message Authentication
failed, so those two cases are indistinguishable to the caller; a stored
user that is locked, inactive or unverified is instead answered with its
state-specific message. -/
theorem login_opaque_failure_amended :
    ∀ (cfg : AuthCfg) (store : List User) (req missReq : LoginRequest)
      (now : Nat) (u : User),
      usersFind store missReq.email = none →
      usersFind store req.email = some u →
      u.canLogin = true →
      bcryptCompare req.password u.passwordHash = false →
      (login cfg store req now).1 = .failure "Authentication failed" none ∧
      (login cfg store missReq now).1 = .failure "Authentication failed" none ∧
      (login cfg store req now).1 = (login cfg store missReq now).1 := by
  intro cfg store req missReq now u hmiss hfound helig hwrong
  have h1 : (login cfg store req now).1 = .failure "Authentication failed" none := by
    simp [login, loginWithFind, findByEmail, hfound, helig, hwrong]
  have h2 : (login cfg store missReq now).1 =
      .failure "Authentication failed" none := by
    simp [login, loginWithFind, findByEmail, hmiss]
  exact ⟨h1, h2, h1.trans h2.symm⟩

/-- C1 witness: the amended theorem applied to a population holding one
eligible user, an unknown email and a wrong password. -/
theorem login_opaque_failure_amended_witness :
    usersFind [sampleUser] "nobody@example.com" = none ∧
    usersFind [sampleUser] "alice@school.example" = some sampleUser ∧
    sampleUser.canLogin = true ∧
    bcryptCompare "wrongPw" sampleUser.passwordHash = false ∧
    (login sampleCfg [sampleUser] ⟨"alice@school.example", "wrongPw"⟩ 100).1 =
      .failure "Authentication failed" none ∧
    (login sampleCfg [sampleUser] ⟨"nobody@example.com", "wrongPw"⟩ 100).1 =
      .failure "Authentication failed" none := by
  refine ⟨rfl, rfl, by decide, by decide, ?_, ?_⟩
  · exact (login_opaque_failure_amended sampleCfg [sampleUser]
      ⟨"alice@school.example", "wrongPw"⟩ ⟨"nobody@example.com", "wrongPw"⟩ 100
      sampleUser rfl rfl (by decide) (by decide)).1
  · exact (login_opaque_failure_amended sampleCfg [sampleUser]
      ⟨"alice@school.example", "wrongPw"⟩ ⟨"nobody@example.com", "wrongPw"⟩ 100
      sampleUser rfl rfl (by decide) (by decide)).2.1

/-- An empty string never passes the email regex. -/
lemma isValidEmail_empty_false : isValidEmail "" = false := by decide

/-- The empty password fails the length check of the password policy. -/
lemma validatePassword_empty :
    validatePassword "" =
      .failure "Password must be at least 8 characters long" none := by decide

/-- A string whose isEmpty flag is set is the empty string. -/
lemma string_isEmpty_eq (s : String) (h : s.isEmpty = true) : s = "" :=
  (String.isEmpty_iff s).mp (by simpa using h)

/-- Under individually valid email, password and name fields, the outcome
of validateRegistrationRequest is decided by the role check alone. -/
lemma validateRegistrationRequest_reduces (req : RegisterRequest)
    (hne : req.email.isEmpty = false)
    (hemail : isValidEmail req.email = true)
    (hpne : req.password.isEmpty = false)
    (d : Bool) (hv : validatePassword req.password = .success d)
    (hfn : ¬((trimStr req.firstName).length < 2))
    (hln : ¬((trimStr req.lastName).length < 2)) :
    validateRegistrationRequest req =
      if (["TEACHER", "STUDENT", "ADMIN", "SCHOOL_ADMIN"] : List String).contains
          (toUpperStr req.role) then .success true
      else .failure "Valid role is required" none := by
  unfold validateRegistrationRequest
  by_cases hT : toUpperStr req.role = "TEACHER" <;>
    by_cases hS : toUpperStr req.role = "STUDENT" <;>
      by_cases hA : toUpperStr req.role = "ADMIN" <;>
        by_cases hSA : toUpperStr req.role = "SCHOOL_ADMIN" <;>
          simp_all [joinWith, if_neg hfn, if_neg hln]

/-- C4 counterexample: a registration with role PARENT and valid fields is
rejected as a validation failure although the claim counts PARENT among
the recognized roles, and a registration with role SCHOOL_ADMIN, a value
outside the claim's recognized set, is accepted and creates the user. -/
theorem register_role_counterexample :
    (register []
        ⟨"parent1@example.com", "Abcdef12", "John", "Smith", none, "PARENT", none⟩
        "fid1").1 =
      .failure "Valid role is required" none ∧
    (register []
        ⟨"sadmin@example.com", "Abcdef12", "Jane", "Smith", none,
          "SCHOOL_ADMIN", none⟩ "fid2").1 =
      .success (mkAdminUser "fid2"
        ⟨"sadmin@example.com", "Abcdef12", "Jane", "Smith", none,
          "SCHOOL_ADMIN", none⟩ (bcryptHash "Abcdef12")) ∧
    (mkAdminUser "fid2"
        ⟨"sadmin@example.com", "Abcdef12", "Jane", "Smith", none,
          "SCHOOL_ADMIN", none⟩ (bcryptHash "Abcdef12")).role = .SCHOOL_ADMIN := by
  exact ⟨by decide, rfl, rfl⟩

/-- C4 amended: register accepts a role exactly when its upper-cased form
is one of TEACHER, STUDENT, ADMIN, SCHOOL_ADMIN: with valid other fields
and a fresh email, any other role value yields the validation failure
Valid role is required, while each accepted value proceeds to create a
user of the corresponding role (ADMIN and SCHOOL_ADMIN both create the
school-administrator variant). -/
theorem register_roles_amended :
    ∀ (store : List User) (req : RegisterRequest) (freshId : String),
      isValidEmail req.email = true →
      (validatePassword req.password).isSuccess = true →
      2 ≤ (trimStr req.firstName).length →
      2 ≤ (trimStr req.lastName).length →
      usersFind store req.email = none →
      ((["TEACHER", "STUDENT", "ADMIN", "SCHOOL_ADMIN"] : List String).contains
          (toUpperStr req.role) = false →
        (register store req freshId).1 = .failure "Valid role is required" none) ∧
      (toUpperStr req.role = "TEACHER" →
        (register store req freshId).1 =
          .success (mkTeacherUser freshId req (bcryptHash req.password)) ∧
        (mkTeacherUser freshId req (bcryptHash req.password)).role = .TEACHER) ∧
      (toUpperStr req.role = "STUDENT" →
        (register store req freshId).1 =
          .success (mkStudentUser freshId req (bcryptHash req.password)) ∧
        (mkStudentUser freshId req (bcryptHash req.password)).role = .STUDENT) ∧
      ((toUpperStr req.role = "ADMIN" ∨ toUpperStr req.role = "SCHOOL_ADMIN") →
        (register store req freshId).1 =
          .success (mkAdminUser freshId req (bcryptHash req.password)) ∧
        (mkAdminUser freshId req (bcryptHash req.password)).role =
          .SCHOOL_ADMIN) := by
  intro store req freshId hemail hpw hfn hln hfresh
  have hne : req.email.isEmpty = false := by
    cases h : req.email.isEmpty
    · rfl
    · rw [string_isEmpty_eq req.email h] at hemail
      exact absurd hemail (by decide)
  have hpne : req.password.isEmpty = false := by
    cases h : req.password.isEmpty
    · rfl
    · rw [string_isEmpty_eq req.password h] at hpw
      exact absurd hpw (by decide)
  have hf1 : ¬((trimStr req.firstName).length < 2) := by omega
  have hf2 : ¬((trimStr req.lastName).length < 2) := by omega
  have hany : store.any (fun v => v.email == req.email) = false := by
    rw [List.any_eq_false]
    intro x hx
    have := List.find?_eq_none.mp hfresh x hx
    simpa using this
  rcases hv : validatePassword req.password with d | ⟨e, det⟩
  case failure =>
    rw [hv] at hpw
    exact absurd hpw (by simp [Result.isSuccess])
  have hval := validateRegistrationRequest_reduces req hne hemail hpne d hv hf1 hf2
  refine ⟨?_, ?_, ?_, ?_⟩
  · intro hrole
    rw [hrole] at hval
    simp only [Bool.false_eq_true, if_false, ite_false] at hval
    unfold register registerWith
    rw [hval]
  · intro hrole
    refine ⟨?_, rfl⟩
    rw [hrole] at hval
    simp only [show (["TEACHER", "STUDENT", "ADMIN", "SCHOOL_ADMIN"] :
      List String).contains "TEACHER" = true by decide, if_true, ite_true] at hval
    unfold register registerWith
    rw [hval, findByEmail, hfresh, hrole]
    simp [createUser, mkTeacherUser, hany]
  · intro hrole
    refine ⟨?_, rfl⟩
    rw [hrole] at hval
    simp only [show (["TEACHER", "STUDENT", "ADMIN", "SCHOOL_ADMIN"] :
      List String).contains "STUDENT" = true by decide, if_true, ite_true] at hval
    unfold register registerWith
    rw [hval, findByEmail, hfresh, hrole]
    simp [createUser, mkStudentUser, hany]
  · intro hrole
    refine ⟨?_, rfl⟩
    rcases hrole with h | h <;> rw [h] at hval
    · simp only [show (["TEACHER", "STUDENT", "ADMIN", "SCHOOL_ADMIN"] :
        List String).contains "ADMIN" = true by decide, if_true, ite_true] at hval
      unfold register registerWith
      rw [hval, findByEmail, hfresh, h]
      simp [createUser, mkAdminUser, hany]
    · simp only [show (["TEACHER", "STUDENT", "ADMIN", "SCHOOL_ADMIN"] :
        List String).contains "SCHOOL_ADMIN" = true by decide, if_true,
        ite_true] at hval
      unfold register registerWith
      rw [hval, findByEmail, hfresh, h]
      simp [createUser, mkAdminUser, hany]

/-- C4 witness: the amended theorem applied to a fresh store and a request
carrying the lower-case role teacher, which is case-normalized and
accepted, creating a TEACHER user. -/
theorem register_roles_amended_witness :
    isValidEmail sampleRegisterRequest.email = true ∧
    (validatePassword sampleRegisterRequest.password).isSuccess = true ∧
    2 ≤ (trimStr sampleRegisterRequest.firstName).length ∧
    2 ≤ (trimStr sampleRegisterRequest.lastName).length ∧
    usersFind [] sampleRegisterRequest.email = none ∧
    toUpperStr sampleRegisterRequest.role = "TEACHER" ∧
    (register [] sampleRegisterRequest "fid9").1 =
      .success (mkTeacherUser "fid9" sampleRegisterRequest
        (bcryptHash sampleRegisterRequest.password)) := by
  refine ⟨by decide, by decide, by decide, by decide, rfl, by decide, ?_⟩
  exact ((register_roles_amended [] sampleRegisterRequest "fid9" (by decide)
    (by decide) (by decide) (by decide) rfl).2.1 (by decide)).1

/-- C5 counterexample: when the duplicate-email pre-check reports no user
but the store's create rejects the write with a uniqueness violation,
register surfaces the generic failure Failed to create user account,
which is a different failure from the conflict failure User with this
email already exists, so the store failure is not translated into the
conflict failure. -/
theorem register_create_failure_counterexample :
    registerWith (.success none)
      (fun _ => .failure "duplicate key value violates unique constraint" none)
      sampleRegisterRequest "fid3" =
      .failure "Failed to create user account" none ∧
    (.failure "Failed to create user account" none : Result User) ≠
      .failure "User with this email already exists" none := by
  exact ⟨by decide, by decide⟩

/-- C5 amended: for every registration request passing field validation,
an email found by the pre-check yields the conflict failure User with this
email already exists, while a pre-check miss followed by a store create
rejection, uniqueness violation included, yields the distinct generic
failure Failed to create user account. -/
theorem register_conflict_amended :
    ∀ (req : RegisterRequest) (freshId : String) (u : User)
      (createRes : User → Result User) (err : String) (det : Option ErrorDetails),
      (validateRegistrationRequest req).isSuccess = true →
      (["TEACHER", "STUDENT", "ADMIN", "SCHOOL_ADMIN"] : List String).contains
        (toUpperStr req.role) = true →
      registerWith (.success (some u)) createRes req freshId =
        .failure "User with this email already exists" none ∧
      ((∀ v, createRes v = .failure err det) →
        registerWith (.success none) createRes req freshId =
          .failure "Failed to create user account" none) := by
  intro req freshId u createRes err det hvalid hrole
  rcases hv : validateRegistrationRequest req with d | ⟨e, dd⟩
  case failure =>
    rw [hv] at hvalid
    exact absurd hvalid (by simp [Result.isSuccess])
  constructor
  · unfold registerWith
    rw [hv]
  · intro hcreate
    have hmem : toUpperStr req.role = "TEACHER" ∨ toUpperStr req.role = "STUDENT" ∨
        toUpperStr req.role = "ADMIN" ∨ toUpperStr req.role = "SCHOOL_ADMIN" := by
      simpa using hrole
    unfold registerWith
    rw [hv]
    rcases hmem with h | h | h | h <;> simp [h, hcreate]

/-- C5 witness: the amended theorem applied to a valid teacher
registration, a stored user for the pre-check hit, and a store whose
create always reports a uniqueness violation. -/
theorem register_conflict_amended_witness :
    (validateRegistrationRequest sampleRegisterRequest).isSuccess = true ∧
    (["TEACHER", "STUDENT", "ADMIN", "SCHOOL_ADMIN"] : List String).contains
      (toUpperStr sampleRegisterRequest.role) = true ∧
    registerWith (.success (some sampleUser))
      (fun _ => .failure "duplicate key value violates unique constraint" none)
      sampleRegisterRequest "fid4" =
      .failure "User with this email already exists" none ∧
    registerWith (.success none)
      (fun _ => .failure "duplicate key value violates unique constraint" none)
      sampleRegisterRequest "fid4" =
      .failure "Failed to create user account" none := by
  refine ⟨by decide, by decide, ?_, ?_⟩
  · exact (register_conflict_amended sampleRegisterRequest "fid4" sampleUser
      (fun _ => .failure "duplicate key value violates unique constraint" none)
      "duplicate key value violates unique constraint" none
      (by decide) (by decide)).1
  · exact (register_conflict_amended sampleRegisterRequest "fid4" sampleUser
      (fun _ => .failure "duplicate key value violates unique constraint" none)
      "duplicate key value violates unique constraint" none
      (by decide) (by decide)).2 (fun _ => rfl)

/-- One-user-store login with a wrong password for an active, verified,
unlocked user: the opaque failure is returned and the incremented failure
counter is persisted. -/
lemma login_wrong_password_step (cfg : AuthCfg) (v : User) (pw : String) (now : Nat)
    (hA : v.isActive = true) (hV : v.isVerified = true)
    (hL : v.isLocked = false)
    (hw : bcryptCompare pw v.passwordHash = false) :
    login cfg [v] ⟨v.email, pw⟩ now =
      (.failure "Authentication failed" none, [v.recordFailedLogin now]) := by
  simp [login, loginWithFind, findByEmail, usersFind, List.find?, User.canLogin,
    hA, hV, hL, hw, updateUser]

/-- One-user-store login against a locked account: the lock-specific
failure is returned for every password and the store is left untouched. -/
lemma login_locked_step (cfg : AuthCfg) (v : User) (pw : String) (now : Nat)
    (hL : v.isLocked = true) :
    login cfg [v] ⟨v.email, pw⟩ now =
      (.failure "Account is locked due to multiple failed attempts" none, [v]) := by
  simp [login, loginWithFind, findByEmail, usersFind, List.find?, User.canLogin, hL]

/-- One-user-store login with the correct password for an active,
verified, unlocked user: success, with the reset counter persisted and
both tokens issued. -/
lemma login_success_step (cfg : AuthCfg) (v : User) (pw : String) (now : Nat)
    (hA : v.isActive = true) (hV : v.isVerified = true)
    (hL : v.isLocked = false)
    (hp : bcryptCompare pw v.passwordHash = true) :
    login cfg [v] ⟨v.email, pw⟩ now =
      (.success ⟨v.recordSuccessfulLogin now,
        generateAccessToken cfg (v.recordSuccessfulLogin now) now,
        generateRefreshToken cfg (v.recordSuccessfulLogin now) now,
        expiresInSecs⟩,
       [v.recordSuccessfulLogin now]) := by
  simp [login, loginWithFind, findByEmail, usersFind, List.find?, User.canLogin,
    hA, hV, hL, hp, updateUser]

/-- The user after n consecutive failed login attempts recorded at the
same instant. -/
def failN (u : User) (now : Nat) : Nat → User
  | 0 => u
  | n + 1 => (failN u now n).recordFailedLogin now

/-- Recording failed logins only moves the failure counter; identity,
credential and lifecycle fields are untouched. -/
lemma failN_spec (u : User) (now : Nat) : ∀ n,
    (failN u now n).failedLoginAttempts = u.failedLoginAttempts + n ∧
    (failN u now n).email = u.email ∧
    (failN u now n).passwordHash = u.passwordHash ∧
    (failN u now n).isActive = u.isActive ∧
    (failN u now n).isVerified = u.isVerified := by
  intro n
  induction n with
  | zero => exact ⟨rfl, rfl, rfl, rfl, rfl⟩
  | succ n ih =>
    obtain ⟨h1, h2, h3, h4, h5⟩ := ih
    refine ⟨?_, ?_, ?_, ?_, ?_⟩
    · show (failN u now n).failedLoginAttempts + 1 = _
      omega
    · exact h2
    · exact h3
    · exact h4
    · exact h5

/-- C2: starting from a fresh, active, verified account, each of the
first five wrong-password logins is rejected with the opaque failure and
persists one more consecutive failure; after the fifth the stored account
has counter 5 and is locked; while locked, every login, with any password
including the correct one, is rejected with the lock-specific message and
changes nothing, so the password is never checked; the explicit unlock
resets the counter to 0, after which a correct-password login succeeds
and persists a counter of 0. -/
theorem login_lockout (cfg : AuthCfg) (u : User) (wp rp : String) (now : Nat)
    (hA : u.isActive = true) (hV : u.isVerified = true)
    (h0 : u.failedLoginAttempts = 0)
    (hw : bcryptCompare wp u.passwordHash = false)
    (hr : bcryptCompare rp u.passwordHash = true) :
    (∀ k : Nat, k < 5 →
      login cfg [failN u now k] ⟨u.email, wp⟩ now =
        (.failure "Authentication failed" none, [failN u now (k + 1)])) ∧
    (failN u now 5).failedLoginAttempts = 5 ∧
    (failN u now 5).isLocked = true ∧
    (∀ pw : String,
      login cfg [failN u now 5] ⟨u.email, pw⟩ now =
        (.failure "Account is locked due to multiple failed attempts" none,
          [failN u now 5])) ∧
    ((failN u now 5).unlock).failedLoginAttempts = 0 ∧
    (∃ resp store',
      login cfg [(failN u now 5).unlock] ⟨u.email, rp⟩ now =
        (.success resp, store') ∧
      resp.user.failedLoginAttempts = 0 ∧ store' = [resp.user]) := by
  have hAtt : ∀ n, (failN u now n).failedLoginAttempts = n := by
    intro n
    rw [(failN_spec u now n).1, h0, Nat.zero_add]
  have hEmail := fun n => (failN_spec u now n).2.1
  have hHash := fun n => (failN_spec u now n).2.2.1
  have hActive : ∀ n, (failN u now n).isActive = true := fun n => by
    rw [(failN_spec u now n).2.2.2.1, hA]
  have hVerified : ∀ n, (failN u now n).isVerified = true := fun n => by
    rw [(failN_spec u now n).2.2.2.2, hV]
  have hLock5 : (failN u now 5).isLocked = true := by
    simp [User.isLocked, hAtt 5, maxFailedLoginAttempts]
  refine ⟨?_, hAtt 5, hLock5, ?_, rfl, ?_⟩
  · intro k hk
    have hLk : (failN u now k).isLocked = false := by
      simp [User.isLocked, hAtt k, maxFailedLoginAttempts]
      omega
    have hwk : bcryptCompare wp (failN u now k).passwordHash = false := by
      rw [hHash k]
      exact hw
    have h' := login_wrong_password_step cfg (failN u now k) wp now
      (hActive k) (hVerified k) hLk hwk
    rw [hEmail k] at h'
    exact h'
  · intro pw
    have h' := login_locked_step cfg (failN u now 5) pw now hLock5
    rw [hEmail 5] at h'
    exact h'
  · have hA' : ((failN u now 5).unlock).isActive = true := hActive 5
    have hV' : ((failN u now 5).unlock).isVerified = true := hVerified 5
    have hL' : ((failN u now 5).unlock).isLocked = false := by
      simp [User.unlock, User.isLocked, maxFailedLoginAttempts]
    have hp' : bcryptCompare rp ((failN u now 5).unlock).passwordHash = true := by
      show bcryptCompare rp (failN u now 5).passwordHash = true
      rw [hHash 5]
      exact hr
    have h' := login_success_step cfg ((failN u now 5).unlock) rp now hA' hV' hL' hp'
    have he : ((failN u now 5).unlock).email = u.email := hEmail 5
    rw [he] at h'
    exact ⟨_, _, h', rfl, rfl⟩

/-- C2 witness: the lockout theorem applied to a concrete fresh user, a
wrong password and the correct password; the fifth failure leaves a
locked account on which even the correct password is rejected with the
lock message. -/
theorem login_lockout_witness :
    sampleUser.isActive = true ∧ sampleUser.isVerified = true ∧
    sampleUser.failedLoginAttempts = 0 ∧
    bcryptCompare "wrongPw" sampleUser.passwordHash = false ∧
    bcryptCompare "GoodPw1x" sampleUser.passwordHash = true ∧
    (failN sampleUser 100 5).isLocked = true ∧
    login sampleCfg [failN sampleUser 100 5]
        ⟨sampleUser.email, "GoodPw1x"⟩ 100 =
      (.failure "Account is locked due to multiple failed attempts" none,
        [failN sampleUser 100 5]) := by
  refine ⟨rfl, rfl, rfl, by decide, by decide, ?_, ?_⟩
  · exact (login_lockout sampleCfg sampleUser "wrongPw" "GoodPw1x" 100
      rfl rfl rfl (by decide) (by decide)).2.2.1
  · exact (login_lockout sampleCfg sampleUser "wrongPw" "GoodPw1x" 100
      rfl rfl rfl (by decide) (by decide)).2.2.2.1 "GoodPw1x"

/-- C3: the access token issued by a successful login is accepted by
verifyToken at any instant before its expiry, returning a success that
carries the freshly re-fetched stored user with the same id as the
logged-in user; at or after the expiry instant the same token is rejected
with the invalid-token failure, and in general every access token whose
expiry instant has passed is rejected by verifyToken with that failure. -/
theorem login_verify_roundtrip (cfg : AuthCfg) (u : User) (pw : String)
    (now t : Nat)
    (hA : u.isActive = true) (hV : u.isVerified = true)
    (hL : u.isLocked = false)
    (hp : bcryptCompare pw u.passwordHash = true) :
    (∃ resp store',
      login cfg [u] ⟨u.email, pw⟩ now = (.success resp, store') ∧
      resp.accessToken.payload.exp = now + accessTokenExpirySecs ∧
      (t < now + accessTokenExpirySecs →
        ∃ v, verifyToken cfg store' resp.accessToken t = .success v ∧
          v.id = u.id) ∧
      (now + accessTokenExpirySecs ≤ t →
        verifyToken cfg store' resp.accessToken t =
          .failure "Invalid token" none)) ∧
    (∀ (tok : SignedToken) (store : List User),
      tok.payload.exp ≤ t →
      verifyToken cfg store tok t = .failure "Invalid token" none) := by
  have hgen : ∀ (tok : SignedToken) (store : List User),
      tok.payload.exp ≤ t →
      verifyToken cfg store tok t = .failure "Invalid token" none := by
    intro tok store htok
    by_cases hs : tok.secret = cfg.jwtSecret <;>
      simp [verifyToken, jwtVerify, hs, htok]
  have h' := login_success_step cfg u pw now hA hV hL hp
  refine ⟨⟨_, _, h', rfl, ?_, ?_⟩, hgen⟩
  · intro ht
    refine ⟨u.recordSuccessfulLogin now, ?_, rfl⟩
    simp [verifyToken, jwtVerify, generateAccessToken, jwtSign, findById,
      List.find?, Nat.not_le.mpr ht, User.recordSuccessfulLogin, hA]
  · intro ht
    exact hgen _ _ ht

/-- C3 witness: the round-trip theorem applied to the sample user and
secrets; a token minted at time 100 carries expiry 1000 and is already
rejected at its exact expiry instant. -/
theorem login_verify_roundtrip_witness :
    sampleUser.isActive = true ∧ sampleUser.isVerified = true ∧
    sampleUser.isLocked = false ∧
    bcryptCompare "GoodPw1x" sampleUser.passwordHash = true ∧
    verifyToken sampleCfg [sampleUser]
      (generateAccessToken sampleCfg sampleUser 100) 1000 =
      .failure "Invalid token" none := by
  refine ⟨rfl, rfl, by decide, by decide, ?_⟩
  exact (login_verify_roundtrip sampleCfg sampleUser "GoodPw1x" 100 1000
    rfl rfl (by decide) (by decide)).2
    (generateAccessToken sampleCfg sampleUser 100) [sampleUser] (by decide)

end AuthCore
